import Mathlib

/-!
Shallow embedding of the Odissey storytelling backend
(`src/backend-api/src/entry.py`) and proofs about its narrative engine
and session manager.

Modelling conventions:
- Python dictionaries of trait scores become association lists
  `List (String × ℚ)`; `d.get(k, 0)` becomes `Personality.get`.
- The artifact bundle dictionary becomes a structure whose fields are
  `Option`-valued, so that a missing key (and the `dict.get(key, default)`
  defaulting of the source) is representable field by field.
- A JSON-text database column that is deserialized on read becomes
  `Column α`: `null` for SQL NULL / the empty string (both falsy in
  Python), `malformed` for text that `json.loads` rejects, and `val v`
  for text that parses to `v`.
- The D1 database becomes an explicit `Store` record threaded through the
  handlers; each handler returns its `ApiResult` together with the store
  as of the moment it answered (writes made before a failure persist,
  as in the source, which never rolls back).
- `random.choice(responses)` becomes selection by an injected natural
  number reduced modulo the pool length.
-/

namespace Odissey

/-- Trait scores: the source compares them with the literal `0.7`;
rationals model the numeric comparisons exactly. -/
abbrev Score := ℚ

/-- A personality mapping (trait name to score), as an association list. -/
abbrev Personality := List (String × Score)

/-- `personality.get(key, 0)` from the source: first binding wins,
a missing trait is 0. -/
def Personality.get (p : Personality) (k : String) : Score :=
  match p.find? (fun kv => kv.1 == k) with
  | some kv => kv.2
  | none => 0

/-- The artifact bundle as the engine sees it: a dictionary whose keys may
be absent.  The source reads only `settings` and `characters` (via
`artifacts.get(key, [])`); the remaining keys of the default bundle are
carried for completeness. -/
structure ArtifactsDict where
  characters : Option (List String)
  settings : Option (List String)
  rules : Option (List String)
  events : Option (List String)
  story_template : Option String
deriving DecidableEq, Repr

/-- The default bundle `default_artifacts` from `create_world`. -/
def default_artifacts : ArtifactsDict :=
  ⟨some [], some [], some [], some [], some "basic_adventure"⟩

/-- `setting_text` from `generate_story_opening`:
`f" in {settings[0]}" if settings else ""`. -/
def setting_text (artifacts : ArtifactsDict) : String :=
  match artifacts.settings.getD [] with
  | [] => ""
  | s :: _ => " in " ++ s

/-- `character_text` from `generate_story_opening`:
`f" You notice {characters[0]} nearby." if characters else ""`. -/
def character_text (artifacts : ArtifactsDict) : String :=
  match artifacts.characters.getD [] with
  | [] => ""
  | c :: _ => " You notice " ++ c ++ " nearby."

/-- `personality_trait` from `generate_story_opening`: the adventurous
excitement clause if `adventurous > 0.7`, else the creative imagination
clause if `creative > 0.7`, else the empty string. -/
def personality_trait (personality : Personality) : String :=
  if Personality.get personality "adventurous" > 7/10 then
    " Your heart races with excitement for the adventure ahead."
  else if Personality.get personality "creative" > 7/10 then
    " Your imagination sparkles with possibilities."
  else ""

/-- `generate_story_opening(world_title, artifacts, personality)`. -/
def generate_story_opening (world_title : String) (artifacts : ArtifactsDict)
    (personality : Personality) : String :=
  "Welcome to " ++ world_title ++ "! You find yourself" ++ setting_text artifacts
    ++ "." ++ character_text artifacts ++ personality_trait personality
    ++ " What would you like to do?"

/-- The five fixed lines of the `responses` list in
`generate_narrator_response`. -/
def base_responses : List String :=
  ["Your action echoes through the world around you. Something stirs in response...",
   "The world shifts subtly as you make your choice. What happens next?",
   "Your decision creates ripples of change. The story continues to unfold...",
   "The adventure takes an unexpected turn based on your actions.",
   "Your courage and creativity guide the story in a new direction."]

/-- The candidate pool after the two conditional `responses.append` calls:
a bravery line if `brave > 0.7` and a creative-spirit line if
`creative > 0.7`, independently. -/
def narrator_responses (personality : Personality) : List String :=
  (base_responses ++
    (if Personality.get personality "brave" > 7/10 then
      ["Your bravery inspires those around you. The path ahead becomes clearer."]
     else [])) ++
    (if Personality.get personality "creative" > 7/10 then
      ["Your creative spirit unlocks new possibilities in this magical world."]
     else [])

/-- `generate_narrator_response(user_message, artifacts, personality)`:
`random.choice(responses)`, with the random draw injected as `choice`,
reduced modulo the pool size.  The source never reads `user_message` or
`artifacts`; the parameters are kept to mirror its signature. -/
def generate_narrator_response (user_message : String) (artifacts : ArtifactsDict)
    (personality : Personality) (choice : Nat) : String :=
  let responses := narrator_responses personality
  responses.getD (choice % responses.length) ""

/-! ## Persistent store model -/

/-- A serialized-JSON database column, as seen when it is read back:
`null` for SQL NULL or the empty string (both falsy in Python and both
rejected by `json.loads`), `malformed` for non-empty text `json.loads`
rejects, `val v` for text that parses to `v`. -/
inductive Column (α : Type) where
  | null
  | malformed
  | val (v : α)
deriving DecidableEq, Repr

/-- `json.loads(text)` on a stored column: only parseable text succeeds;
NULL (Python `None`) and malformed text raise. -/
def jsonLoads {α : Type} : Column α → Except String α
  | Column.val v => Except.ok v
  | Column.null => Except.error "json decode error"
  | Column.malformed => Except.error "json decode error"

/-- `json.loads(text or "\x7b\x7d")` from `story_interact`: a falsy stored
value (NULL or the empty string) is replaced by the empty-object text, so
it parses to the empty mapping instead of raising. -/
def jsonLoadsOrEmptyDict : Column Personality → Except String Personality
  | Column.val p => Except.ok p
  | Column.null => Except.ok []
  | Column.malformed => Except.error "json decode error"

/-- A row of the `users` table. -/
structure UserRow where
  id : String
  name : String
  age : Option Int
  gender : Option String
  auth_type : String
deriving DecidableEq, Repr

/-- A row of the `personality_assessments` table. -/
structure PersonalityAssessmentRow where
  id : String
  user_id : String
  trait_scores : Personality
  assessment_method : String
deriving DecidableEq, Repr

/-- A row of the `worlds` table; `artifacts` is a serialized-JSON column. -/
structure WorldRow where
  id : String
  creator_id : Option String
  title : String
  description : String
  genre : String
  artifacts : Column ArtifactsDict
  privacy_flag : String
deriving DecidableEq, Repr

/-- A row of the `sessions` table; `personality_snapshot` is a
serialized-JSON column. -/
structure SessionRow where
  id : String
  user_id : Option String
  world_id : Option String
  personality_snapshot : Column Personality
deriving DecidableEq, Repr

/-- A row of the `chat_logs` table; `system_prompt_used` is absent for
user lines (the user insert names no such column). -/
structure ChatLogRow where
  id : String
  session_id : String
  speaker : String
  content : String
  system_prompt_used : Option String
deriving DecidableEq, Repr

/-- The D1 database state threaded through the handlers. -/
structure Store where
  users : List UserRow
  personality_assessments : List PersonalityAssessmentRow
  worlds : List WorldRow
  sessions : List SessionRow
  chat_logs : List ChatLogRow
deriving DecidableEq, Repr

/-- The empty database. -/
def Store.empty : Store := ⟨[], [], [], [], []⟩

/-- A handler outcome: an HTTP 200 body, the 404 "not found" answer, or
the catch-all 500 answer built from the raised exception. -/
inductive ApiResult (α : Type) where
  | ok (v : α)
  | notFound (msg : String)
  | failure (msg : String)
deriving DecidableEq, Repr

/-! ## Handlers -/

/-- Request body of `create_user`: the fields the handler reads, plus the
ignored remainder of the JSON object. -/
structure UserPayload where
  name : Option String
  age : Option Int
  gender : Option String
  auth_type : Option String
  personality : Option Personality
deriving DecidableEq, Repr

/-- Response body of `create_user`. -/
structure CreateUserResult where
  user_id : String
  name : String
  route_to_demo : Bool
deriving DecidableEq, Repr

/-- The routing flag computed by `create_user`:
`age is None or age < 13`. -/
def route_to_demo_flag (age : Option Int) : Bool :=
  match age with
  | none => true
  | some a => decide (a < 13)

/-- `create_user`: insert the user row (with defaults), insert an
assessment row when trait data is supplied, and answer with the
`route_to_demo` flag.  The generated UUIDs are injected. -/
def create_user (st : Store) (user_id personality_id : String)
    (data : UserPayload) : ApiResult CreateUserResult × Store :=
  let name := data.name.getD ("User_" ++ user_id.take 8)
  let st1 : Store := { st with users := st.users ++
    [⟨user_id, name, data.age, data.gender, data.auth_type.getD "guest"⟩] }
  let st2 : Store :=
    match data.personality with
    | some traits => { st1 with personality_assessments :=
        st1.personality_assessments ++
          [⟨personality_id, user_id, traits, "preference_discovery"⟩] }
    | none => st1
  (ApiResult.ok ⟨user_id, name, route_to_demo_flag data.age⟩, st2)

/-- Request body of `create_session`. -/
structure SessionPayload where
  user_id : Option String
  world_id : Option String
  personality_snapshot : Option Personality
deriving DecidableEq, Repr

/-- Response body of `create_session`. -/
structure CreateSessionResult where
  session_id : String
  initial_message : String
  world_title : String
deriving DecidableEq, Repr

/-- `SELECT title, artifacts FROM worlds WHERE id = ?` with the bound
`world_id` (binding NULL matches no row). -/
def selectWorldById (st : Store) (world_id : Option String) : Option WorldRow :=
  match world_id with
  | none => none
  | some wid => st.worlds.find? (fun w => w.id == wid)

/-- `create_session`: always insert the session row first; then, only when
the world lookup hits, compute the opening, log it as a narrator line
tagged "story_opening", and answer with it; on a miss answer with the
fallback message and title, with no chat log written.  A world whose
stored artifacts text does not parse raises inside the `try`, leaving the
session row behind and answering with the catch-all failure. -/
def create_session (st : Store) (session_id chat_id : String)
    (data : SessionPayload) : ApiResult CreateSessionResult × Store :=
  let personality_snapshot := data.personality_snapshot.getD []
  let st1 : Store := { st with sessions := st.sessions ++
    [⟨session_id, data.user_id, data.world_id, Column.val personality_snapshot⟩] }
  match selectWorldById st1 data.world_id with
  | none =>
      (ApiResult.ok ⟨session_id, "Welcome to your adventure!", "Unknown World"⟩, st1)
  | some w =>
      match jsonLoads w.artifacts with
      | Except.error e =>
          (ApiResult.failure ("Failed to create session: " ++ e), st1)
      | Except.ok world_artifacts =>
          let initial_message :=
            generate_story_opening w.title world_artifacts personality_snapshot
          let st2 : Store := { st1 with chat_logs := st1.chat_logs ++
            [⟨chat_id, session_id, "narrator", initial_message, some "story_opening"⟩] }
          (ApiResult.ok ⟨session_id, initial_message, w.title⟩, st2)

/-- Request body of `story_interact`: the handler reads only `message`;
any other fields of the JSON object (such as a caller-supplied
personality) are carried here untouched. -/
structure InteractPayload where
  message : Option String
  personality : Option Personality
  other_fields : List (String × String)
deriving DecidableEq, Repr

/-- Response body of `story_interact`. -/
structure InteractResult where
  narrator_response : String
  session_id : String
deriving DecidableEq, Repr

/-- The join
`SELECT s.personality_snapshot, w.title, w.artifacts FROM sessions s JOIN
worlds w ON s.world_id = w.id WHERE s.id = ?`, `.first()`. -/
def selectSessionWithWorld (st : Store) (session_id : String) :
    Option (Column Personality × String × Column ArtifactsDict) :=
  match st.sessions.find? (fun s => s.id == session_id) with
  | none => none
  | some s =>
      match s.world_id with
      | none => none
      | some wid =>
          match st.worlds.find? (fun w => w.id == wid) with
          | none => none
          | some w => some (s.personality_snapshot, w.title, w.artifacts)

/-- `story_interact`: always log the user message first; on a session-join
miss answer 404 (the user line stays); otherwise parse the stored
snapshot (falsy becomes the empty mapping) and the stored artifacts
(unguarded), generate the narrator response, log it tagged
"basic_interaction", and answer.  The random draw and generated UUIDs are
injected. -/
def story_interact (st : Store) (session_id : String)
    (user_chat_id narrator_chat_id : String) (data : InteractPayload)
    (choice : Nat) : ApiResult InteractResult × Store :=
  let user_message := data.message.getD ""
  let st1 : Store := { st with chat_logs := st.chat_logs ++
    [⟨user_chat_id, session_id, "user", user_message, none⟩] }
  match selectSessionWithWorld st1 session_id with
  | none => (ApiResult.notFound "Session not found", st1)
  | some (psCol, _title, artsCol) =>
      match jsonLoadsOrEmptyDict psCol with
      | Except.error e =>
          (ApiResult.failure ("Failed to process interaction: " ++ e), st1)
      | Except.ok personality =>
          match jsonLoads artsCol with
          | Except.error e =>
              (ApiResult.failure ("Failed to process interaction: " ++ e), st1)
          | Except.ok artifacts =>
              let narrator_response :=
                generate_narrator_response user_message artifacts personality choice
              let st2 : Store := { st1 with chat_logs := st1.chat_logs ++
                [⟨narrator_chat_id, session_id, "narrator", narrator_response,
                  some "basic_interaction"⟩] }
              (ApiResult.ok ⟨narrator_response, session_id⟩, st2)

/-! ## Spec-side definitions (for the refinement claim C1) -/

/-- The opening as the spec (§4.1) and claim C1 word it: the base welcome,
then the optional location clause from the first `settings` entry, then
the optional character-notice clause from the first `characters` entry,
then at most one personality-flavor clause chosen adventurous-first, then
the fixed closing question.  Written from the claim, to be compared with
`generate_story_opening`. -/
def spec_opening (world_title : String) (artifacts : ArtifactsDict)
    (personality : Personality) : String :=
  let base := "Welcome to " ++ world_title ++ "! You find yourself"
  let location :=
    match artifacts.settings.getD [] with
    | [] => ""
    | s :: _ => " in " ++ s
  let characterNotice :=
    match artifacts.characters.getD [] with
    | [] => ""
    | c :: _ => " You notice " ++ c ++ " nearby."
  let flavor :=
    if Personality.get personality "adventurous" > 7/10 then
      " Your heart races with excitement for the adventure ahead."
    else if Personality.get personality "creative" > 7/10 then
      " Your imagination sparkles with possibilities."
    else ""
  base ++ location ++ "." ++ characterNotice ++ flavor ++ " What would you like to do?"

/-! ## Helper lemmas -/

/-- The flavor clause is always one of its three possible values. -/
lemma personality_trait_cases (p : Personality) :
    personality_trait p = "" ∨
    personality_trait p = " Your heart races with excitement for the adventure ahead." ∨
    personality_trait p = " Your imagination sparkles with possibilities." := by
  unfold personality_trait
  by_cases ha : Personality.get p "adventurous" > 7/10
  · exact Or.inr (Or.inl (if_pos ha))
  · by_cases hc : Personality.get p "creative" > 7/10
    · rw [if_neg ha, if_pos hc]; exact Or.inr (Or.inr rfl)
    · rw [if_neg ha, if_neg hc]; exact Or.inl rfl

/-- Worlds are looked up the same after updating the `sessions` list. -/
lemma selectWorldById_update_sessions (st : Store) (l : List SessionRow)
    (wid : Option String) :
    selectWorldById { st with sessions := l } wid = selectWorldById st wid := rfl

/-- The session/world join is unaffected by updating the `chat_logs` list. -/
lemma selectSessionWithWorld_update_chat_logs (st : Store) (l : List ChatLogRow)
    (sid : String) :
    selectSessionWithWorld { st with chat_logs := l } sid =
      selectSessionWithWorld st sid := rfl

/-- An element picked at an index reduced modulo the length of a non-empty
list belongs to the list. -/
lemma getD_mod_mem (l : List String) (h : l ≠ []) (i : Nat) (d : String) :
    l.getD (i % l.length) d ∈ l := by
  have hlen : 0 < l.length := List.length_pos.mpr h
  have hi : i % l.length < l.length := Nat.mod_lt _ hlen
  have : l.getD (i % l.length) d = l[i % l.length] := by
    simp [List.getD_eq_getElem?_getD, List.getElem?_eq_getElem hi]
  rw [this]
  exact List.getElem_mem hi

/-- Every candidate in the narrator pool is a non-empty string. -/
lemma narrator_responses_ne_empty (p : Personality) :
    ∀ r ∈ narrator_responses p, r ≠ "" := by
  unfold narrator_responses
  by_cases hb : Personality.get p "brave" > 7/10 <;>
    by_cases hc : Personality.get p "creative" > 7/10
  · rw [if_pos hb, if_pos hc]; decide
  · rw [if_pos hb, if_neg hc]; decide
  · rw [if_neg hb, if_pos hc]; decide
  · rw [if_neg hb, if_neg hc]; decide

/-- The narrator pool always holds at least the five base lines. -/
lemma narrator_responses_length (p : Personality) :
    (narrator_responses p).length =
      5 + (if Personality.get p "brave" > 7/10 then 1 else 0)
        + (if Personality.get p "creative" > 7/10 then 1 else 0) := by
  unfold narrator_responses base_responses
  by_cases hb : Personality.get p "brave" > 7/10 <;>
    by_cases hc : Personality.get p "creative" > 7/10 <;>
      simp [hb, hc]

/-! ## Claims -/

/-- C1: for the "Misty Hollow" world with the given bundle and snapshot,
`generate_opening` returns exactly the expected string; and in general the
opening is the deterministic concatenation of the base welcome, the
optional location clause from the first settings entry, the optional
character-notice clause from the first characters entry, at most one
personality-flavor clause, and the fixed closing question (refinement
against `spec_opening`). -/
theorem claim_C1 :
    (generate_story_opening "Misty Hollow"
        ⟨some ["a fox"], some ["a misty hollow"], some [], some [], some "x"⟩
        [("adventurous", 9/10)] =
      "Welcome to Misty Hollow! You find yourself in a misty hollow. You notice a fox nearby. Your heart races with excitement for the adventure ahead. What would you like to do?") ∧
    (∀ (world_title : String) (artifacts : ArtifactsDict) (personality : Personality),
      generate_story_opening world_title artifacts personality =
        spec_opening world_title artifacts personality) ∧
    (∀ personality : Personality,
      personality_trait personality = "" ∨
      personality_trait personality =
        " Your heart races with excitement for the adventure ahead." ∨
      personality_trait personality =
        " Your imagination sparkles with possibilities.") := by
  refine ⟨?_, ?_, personality_trait_cases⟩
  · norm_num [generate_story_opening, personality_trait, setting_text,
      character_text, Personality.get]
    rfl
  · intro world_title artifacts personality
    unfold generate_story_opening spec_opening personality_trait
      setting_text character_text
    rfl

/-- C5: when both `adventurous` and `creative` exceed 0.7, the opening
carries the adventurous excitement clause and never the creative
imagination clause: the first matching rule wins. -/
theorem claim_C5 (p : Personality)
    (ha : Personality.get p "adventurous" > 7/10)
    (hc : Personality.get p "creative" > 7/10) :
    personality_trait p =
      " Your heart races with excitement for the adventure ahead." ∧
    personality_trait p ≠ " Your imagination sparkles with possibilities." ∧
    ∀ (world_title : String) (artifacts : ArtifactsDict),
      generate_story_opening world_title artifacts p =
        "Welcome to " ++ world_title ++ "! You find yourself"
          ++ setting_text artifacts ++ "." ++ character_text artifacts
          ++ " Your heart races with excitement for the adventure ahead."
          ++ " What would you like to do?" := by
  have htrait : personality_trait p =
      " Your heart races with excitement for the adventure ahead." := by
    unfold personality_trait
    rw [if_pos ha]
  refine ⟨htrait, by rw [htrait]; decide, ?_⟩
  intro world_title artifacts
  unfold generate_story_opening
  rw [htrait]

/-- C5 witness: the snapshot `{adventurous: 0.8, creative: 0.9}` from the
claim selects the excitement clause. -/
theorem claim_C5_witness :
    personality_trait [("adventurous", (8:ℚ)/10), ("creative", (9:ℚ)/10)] =
      " Your heart races with excitement for the adventure ahead." :=
  (claim_C5 [("adventurous", (8:ℚ)/10), ("creative", (9:ℚ)/10)]
    (by
      have h : Personality.get
          [("adventurous", (8:ℚ)/10), ("creative", (9:ℚ)/10)] "adventurous" = 8/10 := by
        simp [Personality.get, List.find?]
      rw [h]; norm_num)
    (by
      have h : Personality.get
          [("adventurous", (8:ℚ)/10), ("creative", (9:ℚ)/10)] "creative" = 9/10 := by
        simp [Personality.get, List.find?]
      rw [h]; norm_num)).1

/-- C8: with an empty (or missing) `settings` sequence the location clause
is wholly omitted — the opening is exactly the concatenation with nothing
where the clause would go — and likewise for the character-notice clause
when `characters` is empty. -/
theorem claim_C8 (world_title : String) (p : Personality) (artifacts : ArtifactsDict) :
    (artifacts.settings.getD [] = [] →
      generate_story_opening world_title artifacts p =
        "Welcome to " ++ world_title ++ "! You find yourself."
          ++ character_text artifacts ++ personality_trait p
          ++ " What would you like to do?") ∧
    (artifacts.characters.getD [] = [] →
      generate_story_opening world_title artifacts p =
        "Welcome to " ++ world_title ++ "! You find yourself"
          ++ setting_text artifacts ++ "." ++ personality_trait p
          ++ " What would you like to do?") := by
  constructor
  · intro hs
    have hset : setting_text artifacts = "" := by
      unfold setting_text
      rw [hs]
    unfold generate_story_opening
    rw [hset, String.append_empty,
      String.append_assoc ("Welcome to " ++ world_title) "! You find yourself" "."]
    rfl
  · intro hc
    have hchar : character_text artifacts = "" := by
      unfold character_text
      rw [hc]
    unfold generate_story_opening
    rw [hchar, String.append_empty]

/-- C8 witness: an all-empty bundle yields the opening with both clauses
omitted. -/
theorem claim_C8_witness :
    generate_story_opening "Void" ⟨some [], some [], some [], some [], none⟩ [] =
      "Welcome to Void! You find yourself."
        ++ character_text ⟨some [], some [], some [], some [], none⟩
        ++ personality_trait [] ++ " What would you like to do?" :=
  (claim_C8 "Void" [] ⟨some [], some [], some [], some [], none⟩).1 rfl

/-- A trait with no binding in the snapshot scores 0. -/
lemma find?_none_get_zero (p : Personality) (t : String)
    (h : p.find? (fun kv => kv.1 == t) = none) : Personality.get p t = 0 := by
  unfold Personality.get
  rw [h]

/-- Prepending an explicit 0 score for an absent trait changes no lookup. -/
lemma get_cons_zero (p : Personality) (t : String)
    (h : p.find? (fun kv => kv.1 == t) = none) (k : String) :
    Personality.get ((t, 0) :: p) k = Personality.get p k := by
  unfold Personality.get
  simp only [List.find?]
  by_cases hk : t == k
  · have ht : t = k := eq_of_beq hk
    subst ht
    simp only [hk]
    rw [h]
  · simp only [hk]

/-- The narrator pool is never empty. -/
lemma narrator_responses_ne_nil (p : Personality) : narrator_responses p ≠ [] := by
  unfold narrator_responses base_responses
  simp

/-- C4: every narrator turn is a non-empty string drawn from the candidate
pool, whose size is 5 with neither bonus line, 6 with exactly one, and 7
with both (`brave` and `creative` bonuses are independent). -/
theorem claim_C4 (user_message : String) (artifacts : ArtifactsDict)
    (p : Personality) (choice : Nat) :
    generate_narrator_response user_message artifacts p choice ≠ "" ∧
    generate_narrator_response user_message artifacts p choice ∈ narrator_responses p ∧
    (¬ Personality.get p "brave" > 7/10 → ¬ Personality.get p "creative" > 7/10 →
      (narrator_responses p).length = 5) ∧
    ((Personality.get p "brave" > 7/10 ↔ ¬ Personality.get p "creative" > 7/10) →
      (narrator_responses p).length = 6) ∧
    (Personality.get p "brave" > 7/10 → Personality.get p "creative" > 7/10 →
      (narrator_responses p).length = 7) := by
  have hmem : generate_narrator_response user_message artifacts p choice ∈
      narrator_responses p := by
    unfold generate_narrator_response
    exact getD_mod_mem _ (narrator_responses_ne_nil p) choice ""
  refine ⟨narrator_responses_ne_empty p _ hmem, hmem, ?_, ?_, ?_⟩
  · intro hb hc
    rw [narrator_responses_length, if_neg hb, if_neg hc]
  · intro hiff
    by_cases hb : Personality.get p "brave" > 7/10
    · rw [narrator_responses_length, if_pos hb, if_neg (hiff.mp hb)]
    · have hc : Personality.get p "creative" > 7/10 := by
        by_contra hcn
        exact hb (hiff.mpr hcn)
      rw [narrator_responses_length, if_neg hb, if_pos hc]
  · intro hb hc
    rw [narrator_responses_length, if_pos hb, if_pos hc]

/-- C4 witness: with only `brave` above the threshold the pool has 6
candidates, and the drawn line for the empty user message is non-empty. -/
theorem claim_C4_witness :
    generate_narrator_response "" default_artifacts [("brave", (8:ℚ)/10)] 3 ≠ "" ∧
    (narrator_responses [("brave", (8:ℚ)/10)]).length = 6 := by
  have hb : Personality.get [("brave", (8:ℚ)/10)] "brave" > 7/10 := by
    have h : Personality.get [("brave", (8:ℚ)/10)] "brave" = 8/10 := by
      simp [Personality.get, List.find?]
    rw [h]; norm_num
  have hc : ¬ Personality.get [("brave", (8:ℚ)/10)] "creative" > 7/10 := by
    have h : Personality.get [("brave", (8:ℚ)/10)] "creative" = 0 := by
      simp [Personality.get, List.find?]
    rw [h]; norm_num
  exact ⟨(claim_C4 "" default_artifacts [("brave", (8:ℚ)/10)] 3).1,
    (claim_C4 "" default_artifacts [("brave", (8:ℚ)/10)] 3).2.2.2.1
      (iff_of_true hb hc)⟩

/-- C6: `generate_turn` ignores the user message content (same pool, same
draw, same reply), and `process_turn` reads only `message` from its
payload — a caller-supplied personality or any other extra field has no
effect — computing the reply from the stored snapshot and stored
artifacts. -/
theorem claim_C6 :
    (∀ (m1 m2 : String) (a : ArtifactsDict) (p : Personality) (c : Nat),
      generate_narrator_response m1 a p c = generate_narrator_response m2 a p c) ∧
    (∀ (st : Store) (session_id user_chat_id narrator_chat_id : String)
        (d1 d2 : InteractPayload) (c : Nat),
      d1.message = d2.message →
      story_interact st session_id user_chat_id narrator_chat_id d1 c =
        story_interact st session_id user_chat_id narrator_chat_id d2 c) ∧
    (∀ (st : Store) (session_id user_chat_id narrator_chat_id : String)
        (d : InteractPayload) (c : Nat) (psCol : Column Personality)
        (title : String) (artsCol : Column ArtifactsDict)
        (arts : ArtifactsDict) (p : Personality),
      selectSessionWithWorld st session_id = some (psCol, title, artsCol) →
      jsonLoadsOrEmptyDict psCol = Except.ok p →
      artsCol = Column.val arts →
      (story_interact st session_id user_chat_id narrator_chat_id d c).1 =
        ApiResult.ok ⟨generate_narrator_response (d.message.getD "") arts p c,
          session_id⟩) := by
  refine ⟨fun m1 m2 a p c => rfl, ?_, ?_⟩
  · intro st sid uc nc d1 d2 c h
    unfold story_interact
    rw [h]
  · intro st sid uc nc d c psCol title artsCol arts p hjoin hps harts
    subst harts
    simp only [story_interact, selectSessionWithWorld_update_chat_logs, hjoin,
      hps, jsonLoads]

/-- C6 witness: two payloads sharing `message` but differing in the extra
personality field and other extra fields produce identical outcomes. -/
theorem claim_C6_witness :
    story_interact Store.empty "s" "u" "n"
        ⟨some "go north", some [("brave", (1:ℚ))], [("artifacts", "hacked")]⟩ 0 =
      story_interact Store.empty "s" "u" "n" ⟨some "go north", none, []⟩ 0 :=
  claim_C6.2.1 Store.empty "s" "u" "n"
    ⟨some "go north", some [("brave", (1:ℚ))], [("artifacts", "hacked")]⟩
    ⟨some "go north", none, []⟩ 0 rfl

/-- C7: the engine is total on malformed input — an absent consulted trait
scores 0 and adding an explicit 0 for it changes nothing, an absent
`settings`/`characters` key behaves as the empty sequence field by field,
and `generate_turn` is insensitive to the whole bundle. -/
theorem claim_C7 :
    (∀ (p : Personality) (t : String),
      p.find? (fun kv => kv.1 == t) = none → Personality.get p t = 0) ∧
    (∀ (p : Personality) (t : String) (world_title : String) (arts : ArtifactsDict),
      p.find? (fun kv => kv.1 == t) = none →
      generate_story_opening world_title arts ((t, 0) :: p) =
        generate_story_opening world_title arts p) ∧
    (∀ (p : Personality) (t : String) (m : String) (arts : ArtifactsDict) (c : Nat),
      p.find? (fun kv => kv.1 == t) = none →
      generate_narrator_response m arts ((t, 0) :: p) c =
        generate_narrator_response m arts p c) ∧
    (∀ (world_title : String) (p : Personality) (arts : ArtifactsDict),
      arts.settings = none →
      generate_story_opening world_title arts p =
        generate_story_opening world_title { arts with settings := some [] } p) ∧
    (∀ (world_title : String) (p : Personality) (arts : ArtifactsDict),
      arts.characters = none →
      generate_story_opening world_title arts p =
        generate_story_opening world_title { arts with characters := some [] } p) ∧
    (∀ (m : String) (a1 a2 : ArtifactsDict) (p : Personality) (c : Nat),
      generate_narrator_response m a1 p c = generate_narrator_response m a2 p c) := by
  refine ⟨find?_none_get_zero, ?_, ?_, ?_, ?_, fun m a1 a2 p c => rfl⟩
  · intro p t world_title arts h
    unfold generate_story_opening personality_trait
    simp only [get_cons_zero p t h]
  · intro p t m arts c h
    unfold generate_narrator_response narrator_responses
    simp only [get_cons_zero p t h]
  · intro world_title p arts hs
    obtain ⟨ch, se, ru, ev, stt⟩ := arts
    simp only at hs
    subst hs
    rfl
  · intro world_title p arts hc
    obtain ⟨ch, se, ru, ev, stt⟩ := arts
    simp only at hc
    subst hc
    rfl

/-- C7 witness: a snapshot without `adventurous` scores it 0, and a bundle
with no `settings` key opens like one with an empty settings list. -/
theorem claim_C7_witness :
    Personality.get [("creative", (9:ℚ)/10)] "adventurous" = 0 ∧
    generate_story_opening "Glade" ⟨none, none, none, none, none⟩ [] =
      generate_story_opening "Glade" ⟨none, some [], none, none, none⟩ [] :=
  ⟨claim_C7.1 [("creative", (9:ℚ)/10)] "adventurous" (by simp [List.find?]),
   claim_C7.2.2.2.1 "Glade" [] ⟨none, none, none, none, none⟩ rfl⟩

/-- C2: `create_session` on a missing world still succeeds — exactly one
session row persisted, fallback message "Welcome to your adventure!" and
title "Unknown World", no chat log — while on a world hit exactly one
narrator chat log tagged "story_opening" is written alongside the session
row. -/
theorem claim_C2 (st : Store) (session_id chat_id : String) (data : SessionPayload) :
    (selectWorldById st data.world_id = none →
      create_session st session_id chat_id data =
        (ApiResult.ok ⟨session_id, "Welcome to your adventure!", "Unknown World"⟩,
         { st with sessions := st.sessions ++
            [⟨session_id, data.user_id, data.world_id,
              Column.val (data.personality_snapshot.getD [])⟩] })) ∧
    (∀ (w : WorldRow) (arts : ArtifactsDict),
      selectWorldById st data.world_id = some w → w.artifacts = Column.val arts →
      create_session st session_id chat_id data =
        (ApiResult.ok ⟨session_id,
           generate_story_opening w.title arts (data.personality_snapshot.getD []),
           w.title⟩,
         { st with
            sessions := st.sessions ++
              [⟨session_id, data.user_id, data.world_id,
                Column.val (data.personality_snapshot.getD [])⟩],
            chat_logs := st.chat_logs ++
              [⟨chat_id, session_id, "narrator",
                generate_story_opening w.title arts (data.personality_snapshot.getD []),
                some "story_opening"⟩] })) := by
  constructor
  · intro h
    simp only [create_session, selectWorldById_update_sessions, h]
  · intro w arts hw ha
    simp only [create_session, selectWorldById_update_sessions, hw, ha, jsonLoads]

/-- The world used by the concrete session-manager witnesses. -/
def misty_world : WorldRow :=
  ⟨"w1", none, "Misty Hollow", "", "adventure",
   Column.val ⟨some ["a fox"], some ["a misty hollow"], some [], some [], some "x"⟩,
   "public"⟩

/-- A store holding exactly `misty_world` and nothing else. -/
def misty_store : Store := ⟨[], [], [misty_world], [], []⟩

/-- C2 witness: a dangling world id gets the fallback answer with no chat
log; the id "w1" gets the generated opening logged as the only chat row. -/
theorem claim_C2_witness :
    ((create_session misty_store "s1" "c1" ⟨some "u1", some "missing", some []⟩).1 =
        ApiResult.ok ⟨"s1", "Welcome to your adventure!", "Unknown World"⟩ ∧
      (create_session misty_store "s1" "c1"
          ⟨some "u1", some "missing", some []⟩).2.chat_logs = []) ∧
    ((create_session misty_store "s1" "c1" ⟨some "u1", some "w1", some []⟩).1 =
        ApiResult.ok ⟨"s1",
          "Welcome to Misty Hollow! You find yourself in a misty hollow. You notice a fox nearby. What would you like to do?",
          "Misty Hollow"⟩ ∧
      (create_session misty_store "s1" "c1"
          ⟨some "u1", some "w1", some []⟩).2.chat_logs =
        [⟨"c1", "s1", "narrator",
          "Welcome to Misty Hollow! You find yourself in a misty hollow. You notice a fox nearby. What would you like to do?",
          some "story_opening"⟩]) := by
  have hmiss := (claim_C2 misty_store "s1" "c1" ⟨some "u1", some "missing", some []⟩).1
    (by simp [selectWorldById, misty_store, misty_world, List.find?])
  have hhit := (claim_C2 misty_store "s1" "c1" ⟨some "u1", some "w1", some []⟩).2
    misty_world ⟨some ["a fox"], some ["a misty hollow"], some [], some [], some "x"⟩
    (by simp [selectWorldById, misty_store, misty_world, List.find?]) rfl
  have hopen : generate_story_opening "Misty Hollow"
      ⟨some ["a fox"], some ["a misty hollow"], some [], some [], some "x"⟩ [] =
      "Welcome to Misty Hollow! You find yourself in a misty hollow. You notice a fox nearby. What would you like to do?" := by
    norm_num [generate_story_opening, personality_trait, setting_text,
      character_text, Personality.get, List.find?]
    rfl
  refine ⟨⟨?_, ?_⟩, ⟨?_, ?_⟩⟩
  · rw [hmiss]
  · rw [hmiss]
    rfl
  · rw [hhit]
    simp only [misty_world, Option.getD_some, hopen]
  · rw [hhit]
    simp only [misty_world, Option.getD_some, hopen]
    rfl

/-- C3: `process_turn` on a session id that matches no session row first
persists exactly one user chat row (speaker "user", no system prompt),
then answers the distinct not-found result, writing no narrator row and
leaving the orphaned user row in place. -/
theorem claim_C3 (st : Store) (session_id user_chat_id narrator_chat_id : String)
    (data : InteractPayload) (choice : Nat)
    (h : st.sessions.find? (fun s => s.id == session_id) = none) :
    story_interact st session_id user_chat_id narrator_chat_id data choice =
      (ApiResult.notFound "Session not found",
       { st with chat_logs := st.chat_logs ++
          [⟨user_chat_id, session_id, "user", data.message.getD "", none⟩] }) ∧
    ∀ msg : String,
      (ApiResult.notFound "Session not found" : ApiResult InteractResult) ≠
        ApiResult.failure msg := by
  have hjoin : selectSessionWithWorld st session_id = none := by
    unfold selectSessionWithWorld
    rw [h]
  constructor
  · simp only [story_interact, selectSessionWithWorld_update_chat_logs, hjoin]
  · intro msg hmsg
    cases hmsg

/-- C3 witness: interacting with session "ghost" on an empty store leaves
one orphaned user row and answers not-found. -/
theorem claim_C3_witness :
    story_interact Store.empty "ghost" "u1" "n1" ⟨some "hello", none, []⟩ 0 =
      (ApiResult.notFound "Session not found",
       { Store.empty with chat_logs := [⟨"u1", "ghost", "user", "hello", none⟩] }) := by
  have h := (claim_C3 Store.empty "ghost" "u1" "n1" ⟨some "hello", none, []⟩ 0 rfl).1
  rw [h]
  rfl

/-- C9 (implicit): every `create_user` answer carries the undocumented
`route_to_demo` flag, true exactly when the age field is absent or below
13. -/
theorem claim_C9 (st : Store) (user_id personality_id : String) (data : UserPayload) :
    ((create_user st user_id personality_id data).1 =
      ApiResult.ok ⟨user_id, data.name.getD ("User_" ++ user_id.take 8),
        route_to_demo_flag data.age⟩) ∧
    (route_to_demo_flag data.age = true ↔
      data.age = none ∨ ∃ a : Int, data.age = some a ∧ a < 13) := by
  constructor
  · rfl
  · cases hage : data.age with
    | none => simp [route_to_demo_flag]
    | some a =>
        simp only [route_to_demo_flag, decide_eq_true_eq]
        constructor
        · intro hlt
          exact Or.inr ⟨a, rfl, hlt⟩
        · rintro (hnone | ⟨b, hb, hlt⟩)
          · cases hnone
          · cases hb
            exact hlt

/-- C9 witness: an ageless guest routes to demo, a 30-year-old does not. -/
theorem claim_C9_witness :
    (create_user Store.empty "u01" "p01" ⟨none, none, none, none, none⟩).1 =
      ApiResult.ok ⟨"u01", "User_u01", true⟩ ∧
    (create_user Store.empty "u01" "p01" ⟨none, some 30, none, none, none⟩).1 =
      ApiResult.ok ⟨"u01", "User_u01", false⟩ := by
  have h1 := (claim_C9 Store.empty "u01" "p01" ⟨none, none, none, none, none⟩).1
  have h2 := (claim_C9 Store.empty "u01" "p01" ⟨none, some 30, none, none, none⟩).1
  rw [h1, h2]
  refine ⟨rfl, ?_⟩
  have : route_to_demo_flag (some 30) = false := by
    simp [route_to_demo_flag]
  rw [this]
  rfl

/-- C10 (implicit): on an existing session a null (or empty) stored
snapshot is treated as the empty trait mapping and the turn succeeds, the
narrator row included; a stored artifacts text that does not parse makes
the turn fail after the user row is written, with no narrator row. -/
theorem claim_C10 (st : Store) (session_id user_chat_id narrator_chat_id : String)
    (data : InteractPayload) (choice : Nat) (psCol : Column Personality)
    (title : String) (artsCol : Column ArtifactsDict)
    (hjoin : selectSessionWithWorld st session_id = some (psCol, title, artsCol)) :
    (∀ arts : ArtifactsDict, psCol = Column.null → artsCol = Column.val arts →
      story_interact st session_id user_chat_id narrator_chat_id data choice =
        (ApiResult.ok
           ⟨generate_narrator_response (data.message.getD "") arts [] choice,
            session_id⟩,
         { st with chat_logs := st.chat_logs ++
            [⟨user_chat_id, session_id, "user", data.message.getD "", none⟩,
             ⟨narrator_chat_id, session_id, "narrator",
              generate_narrator_response (data.message.getD "") arts [] choice,
              some "basic_interaction"⟩] })) ∧
    (psCol ≠ Column.malformed →
      (artsCol = Column.null ∨ artsCol = Column.malformed) →
      story_interact st session_id user_chat_id narrator_chat_id data choice =
        (ApiResult.failure "Failed to process interaction: json decode error",
         { st with chat_logs := st.chat_logs ++
            [⟨user_chat_id, session_id, "user", data.message.getD "", none⟩] })) := by
  constructor
  · intro arts hps harts
    subst hps
    subst harts
    simp only [story_interact, selectSessionWithWorld_update_chat_logs, hjoin,
      jsonLoadsOrEmptyDict, jsonLoads, List.append_assoc, List.cons_append,
      List.nil_append]
  · intro hps harts
    have hok : ∃ p, jsonLoadsOrEmptyDict psCol = Except.ok p := by
      cases psCol with
      | null => exact ⟨[], rfl⟩
      | malformed => exact absurd rfl hps
      | val v => exact ⟨v, rfl⟩
    obtain ⟨p, hp⟩ := hok
    rcases harts with h | h <;> subst h <;>
      simp only [story_interact, selectSessionWithWorld_update_chat_logs, hjoin,
        hp, jsonLoads] <;> rfl

/-- The stores used by the C10 witness: one session whose stored snapshot
is NULL over a well-formed world, and one whose world artifacts text is
malformed. -/
def null_snapshot_store : Store :=
  ⟨[], [], [misty_world], [⟨"s1", some "u1", some "w1", Column.null⟩], []⟩

/-- A store whose only world carries unparseable artifacts text. -/
def bad_artifacts_store : Store :=
  ⟨[], [],
   [⟨"w2", none, "Broken", "", "adventure", Column.malformed, "public"⟩],
   [⟨"s2", some "u1", some "w2", Column.null⟩], []⟩

/-- C10 witness: the NULL-snapshot session answers a generated line; the
malformed-artifacts session fails with only the user row written. -/
theorem claim_C10_witness :
    (story_interact null_snapshot_store "s1" "u1" "n1" ⟨some "look", none, []⟩ 2).1 =
      ApiResult.ok
        ⟨generate_narrator_response "look"
           ⟨some ["a fox"], some ["a misty hollow"], some [], some [], some "x"⟩
           [] 2, "s1"⟩ ∧
    story_interact bad_artifacts_store "s2" "u2" "n2" ⟨some "look", none, []⟩ 0 =
      (ApiResult.failure "Failed to process interaction: json decode error",
       { bad_artifacts_store with chat_logs :=
          [⟨"u2", "s2", "user", "look", none⟩] }) := by
  have h1 := (claim_C10 null_snapshot_store "s1" "u1" "n1" ⟨some "look", none, []⟩ 2
    Column.null "Misty Hollow"
    (Column.val ⟨some ["a fox"], some ["a misty hollow"], some [], some [], some "x"⟩)
    (by simp [selectSessionWithWorld, null_snapshot_store, misty_world, List.find?])).1
    ⟨some ["a fox"], some ["a misty hollow"], some [], some [], some "x"⟩ rfl rfl
  have h2 := (claim_C10 bad_artifacts_store "s2" "u2" "n2" ⟨some "look", none, []⟩ 0
    Column.null "Broken" Column.malformed
    (by simp [selectSessionWithWorld, bad_artifacts_store, List.find?])).2
    (by intro h; cases h) (Or.inr rfl)
  constructor
  · rw [h1]
    rfl
  · rw [h2]
    rfl

end Odissey
